import Mathlib

/-!
# MP_Volume C++ backend — shallow embedding and verification

This file embeds the vesicle-simulation C++ backend (`src/cpp_backend`) in
Lean 4 and settles a list of claims about it.

Modelling conventions:
* IEEE-754 `double` arithmetic is idealised as exact rational arithmetic (`ℚ`).
* Calls to the C math library (`std::exp`, `std::log`, `std::log10`,
  `std::pow` with a non-integer exponent, `std::pow(10, x)`) are modelled by
  an explicit record of abstract functions (`RealFuns`) threaded through the
  definitions, so every definition stays computable; `std::pow` with an `int`
  exponent is modelled exactly by `zpow` on `ℚ`.
* Code that prints a warning to stdout/stderr and continues is modelled by a
  `Bool` "warned" component; code that throws is modelled with `Except String`.
* Mutation is modelled by explicit state passing: each C++ member function
  becomes a Lean function from the old state to the new state.
-/

namespace MPVolume

/-- Constant `FARADAY_CONSTANT` from `Simulation.cpp` / `IonChannel.cpp`. -/
def FARADAY_CONSTANT : ℚ := 96485

/-- Constant `IDEAL_GAS_CONSTANT` from `Simulation.cpp` / `IonChannel.cpp`. -/
def IDEAL_GAS_CONSTANT : ℚ := 8.31446261815324

/-- The `PI` literal from `Vesicle.cpp`. -/
def PI_CONST : ℚ := 3.14159265358979323846

/-- Data members of `IonSpecies` (`IonSpecies.h`): display name, the immutable
configuration values, and the mutable vesicle concentration / amount. -/
structure IonSpeciesState where
  displayName : String
  initVesicleConc : ℚ
  exteriorConc : ℚ
  elementaryCharge : ℚ
  vesicleConc : ℚ
  vesicleAmount : ℚ
deriving Repr, DecidableEq

/-- Constructor `IonSpecies::IonSpecies`: the current vesicle concentration
starts at the initial concentration and the amount starts at zero. -/
def IonSpecies.mk0 (displayName : String) (initVesicleConc exteriorConc elementaryCharge : ℚ) :
    IonSpeciesState :=
  { displayName := if displayName = "" then "UnnamedSpecies" else displayName
    initVesicleConc := initVesicleConc
    exteriorConc := exteriorConc
    elementaryCharge := elementaryCharge
    vesicleConc := initVesicleConc
    vesicleAmount := 0 }

/-- Setter `IonSpecies::setVesicleAmount`: a negative value is replaced by `0` and a
warning is printed (modelled by the `Bool` component); otherwise the value is
stored unchanged.  The C++ setter never throws. -/
def setVesicleAmount (s : IonSpeciesState) (value : ℚ) : IonSpeciesState × Bool :=
  if value < 0 then ({ s with vesicleAmount := 0 }, true)
  else ({ s with vesicleAmount := value }, false)

/-- Setter `IonSpecies::setVesicleConc`: a value `≤ 0` is replaced by the minimum
threshold `1e-9` and a warning is printed (modelled by the `Bool` component);
otherwise the value is stored unchanged.  The C++ setter never throws. -/
def setVesicleConc (s : IonSpeciesState) (value : ℚ) : IonSpeciesState × Bool :=
  if value ≤ 0 then ({ s with vesicleConc := (1e-9 : ℚ) }, true)
  else ({ s with vesicleConc := value }, false)

/-- Method `Simulation::setIonAmounts`: for every species,
`amount := vesicleConc * 1000 * volumeInLiters` (stored through
`setVesicleAmount`). -/
def setIonAmountsList (speciesList : List IonSpeciesState) (volumeInLiters : ℚ) :
    List IonSpeciesState :=
  speciesList.map (fun s => (setVesicleAmount s (s.vesicleConc * 1000 * volumeInLiters)).1)

/-- Method `Simulation::updateVesicleConcentrations`: for every species,
`conc := vesicleAmount / (1000 * volumeInLiters)` (stored through
`setVesicleConc`). -/
def updateVesicleConcentrationsList (speciesList : List IonSpeciesState) (volumeInLiters : ℚ) :
    List IonSpeciesState :=
  speciesList.map (fun s => (setVesicleConc s (s.vesicleAmount / (1000 * volumeInLiters))).1)

/-- Method `Simulation::updateIonAmounts`: if the number of fluxes differs from the
number of species the function prints to `stderr` and returns with every
species untouched (no exception); otherwise each species gets
`newAmount = oldAmount + flux * timeStep`, clamped to `0` when negative,
stored through `setVesicleAmount`. -/
def updateIonAmountsList (speciesList : List IonSpeciesState) (fluxes : List ℚ) (timeStep : ℚ) :
    List IonSpeciesState :=
  if fluxes.length ≠ speciesList.length then speciesList
  else (speciesList.zip fluxes).map (fun sf =>
    let newAmount := sf.1.vesicleAmount + sf.2 * timeStep
    let clamped := if newAmount < 0 then 0 else newAmount
    (setVesicleAmount sf.1 clamped).1)

/-- A demonstration species used by concrete witnesses. -/
def demoSpecies : IonSpeciesState :=
  { displayName := "na", initVesicleConc := 1, exteriorConc := 2
    elementaryCharge := 1, vesicleConc := 1, vesicleAmount := 0 }

/-- Abstract stand-ins for the C math library calls made by the backend.
`exp`, `log`, `log10` model `std::exp`, `std::log`, `std::log10`;
`pow10 x` models `std::pow(10, x)`; `powQ b e` models `std::pow(b, e)` with a
non-integer exponent (used only for the sphere geometry).  Keeping them
abstract keeps every definition computable; theorems quantify over them. -/
structure RealFuns where
  exp : ℚ → ℚ
  log : ℚ → ℚ
  log10 : ℚ → ℚ
  pow10 : ℚ → ℚ
  powQ : ℚ → ℚ → ℚ

/-- The member fields of `FluxCalculationParameters` (its constructor zeroes
all of them; `Simulation::getFluxCalculationParameters` fills them in). -/
structure FluxCalculationParameters where
  voltage : ℚ
  pH : ℚ
  time : ℚ
  area : ℚ
  nernstConstant : ℚ
  vesicleHydrogenFree : ℚ
  exteriorHydrogenFree : ℚ
deriving Repr, DecidableEq

/-- Data members of `IonChannel` (`IonChannel.h`).  The `shared_ptr` species
references are modelled as `Option IonSpeciesState` snapshots; the cached
trackable fields (`flux_`, `nernstPotential_`, the three dependence factors)
only feed the history recorder and are omitted — the claim theorems are about
the return values of the compute functions. -/
structure IonChannel where
  conductance : ℚ
  channelType : String
  dependenceType : String
  voltageMultiplier : ℚ
  nernstMultiplier : ℚ
  voltageShift : ℚ
  fluxMultiplier : ℚ
  allowedPrimaryIon : String
  allowedSecondaryIon : String
  primaryExponent : ℤ
  secondaryExponent : ℤ
  customNernstConstant : ℚ
  useFreeHydrogen : Bool
  voltageExponent : ℚ
  halfActVoltage : ℚ
  pHExponent : ℚ
  halfActPH : ℚ
  timeExponent : ℚ
  halfActTime : ℚ
  displayName : String
  primarySpecies : Option IonSpeciesState
  secondarySpecies : Option IonSpeciesState
deriving Repr, DecidableEq

/-- Method `IonChannel::computePHDependence`: `1.0` when either gating parameter is
unset (`!x` on a double is true exactly when `x == 0.0`), else the logistic
term `1 / (1 + exp(pHExponent * (pH - halfActPH)))`. -/
def computePHDependence (F : RealFuns) (ch : IonChannel) (pH : ℚ) : ℚ :=
  if ch.pHExponent = 0 ∨ ch.halfActPH = 0 then 1
  else 1 / (1 + F.exp (ch.pHExponent * (pH - ch.halfActPH)))

/-- Method `IonChannel::computeVoltageDependence`: `1.0` when either gating parameter
is unset, else the logistic term at the effective voltage
`voltage * voltageMultiplier - voltageShift`. -/
def computeVoltageDependence (F : RealFuns) (ch : IonChannel) (voltage : ℚ) : ℚ :=
  if ch.voltageExponent = 0 ∨ ch.halfActVoltage = 0 then 1
  else
    let effectiveVoltage := voltage * ch.voltageMultiplier - ch.voltageShift
    1 / (1 + F.exp (ch.voltageExponent * (effectiveVoltage - ch.halfActVoltage)))

/-- Method `IonChannel::computeTimeDependence`: `1.0` when either gating parameter is
unset, else the logistic term `1 / (1 + exp(timeExponent * (time - halfActTime)))`. -/
def computeTimeDependence (F : RealFuns) (ch : IonChannel) (time : ℚ) : ℚ :=
  if ch.timeExponent = 0 ∨ ch.halfActTime = 0 then 1
  else 1 / (1 + F.exp (ch.timeExponent * (time - ch.halfActTime)))

/-- Method `IonChannel::computeLogTerm`, translated branch by branch.  Throws
(`Except.error`) when the primary species is missing or an identity check
fails.  For the two-ion branch the ratio is
`(ext_p/ves_p)^primaryExponent * (ves_s/ext_s)^secondaryExponent` and the
result is `0` when `ratio ≤ 0`, else `log ratio`; for the single-ion branch
the code instead guards on the operand signs (`exteriorConc ≤ 0` or
`vesicleConc ≤ 0` gives `0`) and otherwise returns
`log ((ext/ves)^primaryExponent)`. -/
def computeLogTerm (F : RealFuns) (ch : IonChannel) (params : FluxCalculationParameters) :
    Except String ℚ :=
  match ch.primarySpecies with
  | none => .error "Cannot compute log term: primary species not connected"
  | some prim =>
    if prim.displayName ≠ ch.allowedPrimaryIon then
      .error "Primary species mismatch"
    else if ch.allowedSecondaryIon ≠ "" ∧ ch.secondarySpecies = none then
      .error "Secondary species not connected for two-ion channel"
    else if ch.secondarySpecies.any (fun sec => sec.displayName != ch.allowedSecondaryIon) then
      .error "Secondary species mismatch"
    else
      let vesicleConc := if ch.useFreeHydrogen ∧ prim.displayName = "h" then
        params.vesicleHydrogenFree else prim.vesicleConc
      let exteriorConc := if ch.useFreeHydrogen ∧ prim.displayName = "h" then
        params.exteriorHydrogenFree else prim.exteriorConc
      match ch.secondarySpecies with
      | some sec =>
        let secondaryVesicleConc := if ch.useFreeHydrogen ∧ sec.displayName = "h" then
          params.vesicleHydrogenFree else sec.vesicleConc
        let secondaryExteriorConc := if ch.useFreeHydrogen ∧ sec.displayName = "h" then
          params.exteriorHydrogenFree else sec.exteriorConc
        let primaryTerm := (exteriorConc / vesicleConc) ^ ch.primaryExponent
        let secondaryTerm := (secondaryVesicleConc / secondaryExteriorConc) ^ ch.secondaryExponent
        let prod := primaryTerm * secondaryTerm
        if prod ≤ 0 then .ok 0
        else .ok (F.log prod)
      | none =>
        if exteriorConc ≤ 0 ∨ vesicleConc ≤ 0 then .ok 0
        else .ok (F.log ((exteriorConc / vesicleConc) ^ ch.primaryExponent))

/-- Method `IonChannel::computeNernstPotential`: the custom Nernst constant overrides
the snapshot's when non-zero; the potential is
`voltageMultiplier * voltage + nernstMultiplier * nernstConstant * logTerm - voltageShift`. -/
def computeNernstPotential (F : RealFuns) (ch : IonChannel)
    (params : FluxCalculationParameters) : Except String ℚ := do
  let voltage := params.voltage
  let nernstConstant := if ch.customNernstConstant ≠ 0 then ch.customNernstConstant
    else params.nernstConstant
  let logTerm ← computeLogTerm F ch params
  pure (ch.voltageMultiplier * voltage + (ch.nernstMultiplier * nernstConstant * logTerm) -
    ch.voltageShift)

/-- Method `IonChannel::computeFlux`: returns `0` immediately when the conductance is
zero; otherwise activates the gating factors selected by `dependenceType`,
computes the Nernst potential, and returns
`fluxMultiplier * nernstPotential * conductance * area * (product of gating factors)`. -/
def computeFlux (F : RealFuns) (ch : IonChannel) (params : FluxCalculationParameters) :
    Except String ℚ :=
  if ch.conductance = 0 then .ok 0
  else
    let pHDependence := if ch.dependenceType = "pH" ∨ ch.dependenceType = "voltage_and_pH" then
      computePHDependence F ch params.pH else 1
    let voltageDependence :=
      if ch.dependenceType = "voltage" ∨ ch.dependenceType = "voltage_and_pH" then
        computeVoltageDependence F ch params.voltage else 1
    let timeDependence := if ch.dependenceType = "time" then
      computeTimeDependence F ch params.time else 1
    do
      let nernstPotential ← computeNernstPotential F ch params
      let flux := ch.fluxMultiplier * nernstPotential * ch.conductance * params.area
      pure (flux * (pHDependence * voltageDependence * timeDependence))

/-- Method `IonSpecies::validateChannelCompatibility`: a channel with a
non-empty allowed-secondary-ion requires a secondary species and the pair of
display names must match the allowed pair in either order; a single-ion
channel requires the primary name to match the allowed primary ion. -/
def validateChannelCompatibility (channel : IonChannel) (primary : IonSpeciesState)
    (secondary : Option IonSpeciesState) : Bool :=
  if channel.allowedSecondaryIon ≠ "" then
    match secondary with
    | none => false
    | some sec =>
      (primary.displayName == channel.allowedPrimaryIon &&
        sec.displayName == channel.allowedSecondaryIon) ||
      (primary.displayName == channel.allowedSecondaryIon &&
        sec.displayName == channel.allowedPrimaryIon)
  else primary.displayName == channel.allowedPrimaryIon

/-- Method `IonChannel::connectSpecies`: throws when a two-ion channel is given no
secondary species, otherwise stores the species references on the channel. -/
def connectSpecies (channel : IonChannel) (primary : IonSpeciesState)
    (secondary : Option IonSpeciesState) : Except String IonChannel :=
  if channel.allowedSecondaryIon ≠ "" ∧ secondary = none then
    .error "Secondary ion species required for two-ion channel"
  else .ok { channel with primarySpecies := some primary, secondarySpecies := secondary }

/-- An `IonSpecies` object together with its `channels_` vector. -/
structure IonSpeciesObj where
  state : IonSpeciesState
  channels : List IonChannel
deriving Repr, DecidableEq

/-- Method `IonSpecies::connectChannel`: validates compatibility; on failure throws a
descriptive compatibility error (message text abridged here, with the same
case split as the source); on success wires the channel references and
appends the channel to this species' channel list. -/
def connectChannel (sp : IonSpeciesObj) (channel : IonChannel)
    (secondary : Option IonSpeciesState) : Except String IonSpeciesObj :=
  if ¬ validateChannelCompatibility channel sp.state secondary then
    match secondary with
    | some sec => .error ("Channel " ++ channel.displayName ++
        " is not compatible with the provided ion species: primary=" ++
        sp.state.displayName ++ ", secondary=" ++ sec.displayName)
    | none => .error ("Channel " ++ channel.displayName ++
        " does not support the ion species " ++ sp.state.displayName ++
        ". Expected primary ion type is " ++ channel.allowedPrimaryIon)
  else do
    let wired ← connectSpecies channel sp.state secondary
    .ok { sp with channels := sp.channels ++ [wired] }

/-- Data members of `Vesicle` (`Vesicle.h`): the configuration constants, the
derived initial properties and the mutable runtime properties. -/
structure VesicleState where
  specificCapacitance : ℚ
  initVoltage : ℚ
  initRadius : ℚ
  initPH : ℚ
  displayName : String
  initVolume : ℚ
  initArea : ℚ
  initCapacitance : ℚ
  initCharge : ℚ
  pH : ℚ
  volume : ℚ
  area : ℚ
  capacitance : ℚ
  charge : ℚ
  voltage : ℚ
deriving Repr, DecidableEq

/-- Constructor `Vesicle::Vesicle`: clamps the initial voltage to the symmetric
range given by `MAX_VOLTAGE = 709/80 + (-0.04)`, then derives volume, area,
capacitance and charge from the sphere of the initial radius. -/
def Vesicle.mk0 (initRadius initVoltage initPH specificCapacitance : ℚ)
    (displayName : String) : VesicleState :=
  let voltageExponent : ℚ := 80
  let halfActVoltage : ℚ := -0.04
  let maxVoltage := 709 / voltageExponent + halfActVoltage
  let clampedVoltage :=
    if initVoltage > maxVoltage then maxVoltage
    else if initVoltage < -maxVoltage then -maxVoltage
    else initVoltage
  let initVolume := (4 / 3) * PI_CONST * initRadius ^ (3 : ℕ)
  let initArea := 4 * PI_CONST * initRadius ^ (2 : ℕ)
  let initCapacitance := initArea * specificCapacitance
  { specificCapacitance := specificCapacitance
    initVoltage := clampedVoltage
    initRadius := initRadius
    initPH := initPH
    displayName := displayName
    initVolume := initVolume
    initArea := initArea
    initCapacitance := initCapacitance
    initCharge := clampedVoltage * initCapacitance
    pH := initPH
    volume := initVolume
    area := initArea
    capacitance := initArea * specificCapacitance
    charge := clampedVoltage * (initArea * specificCapacitance)
    voltage := clampedVoltage }

/-- Method `Vesicle::updateArea`: recomputes the area from the current volume via
the sphere relation `area = (36π)^(1/3) * volume^(2/3)` (both non-integer
powers go through the abstract `std::pow` model). -/
def Vesicle.updateArea (F : RealFuns) (v : VesicleState) : VesicleState :=
  { v with area := F.powQ (36 * PI_CONST) (1 / 3) * F.powQ v.volume (2 / 3) }

/-- Method `Vesicle::updateCapacitance`: `capacitance = area * specificCapacitance`. -/
def Vesicle.updateCapacitance (v : VesicleState) : VesicleState :=
  { v with capacitance := v.area * v.specificCapacitance }

/-- Data members of `Simulation` (`Simulation.h`) needed by the step loop.  The
channel table only feeds flux computation, whose values the run theorems
quantify over (see `runLoopBody`), so it is not carried in the state. -/
structure SimState where
  timeStep : ℚ
  totalTime : ℚ
  time : ℚ
  temperature : ℚ
  initBufferCapacity : ℚ
  bufferCapacity : ℚ
  displayName : String
  unaccountedIonAmount : ℚ
  vesicle : VesicleState
  exteriorPH : ℚ
  species : List IonSpeciesState
deriving Repr, DecidableEq

/-- Method `Simulation::getUnaccountedIonAmount`:
`initCharge / FARADAY_CONSTANT - (Σ elementaryCharge_i * initVesicleConc_i) * 1000 * initVolume`.
Note the explicit `1000` factor at `Simulation.cpp:598`. -/
def Simulation.getUnaccountedIonAmount (st : SimState) : ℚ :=
  st.vesicle.initCharge / FARADAY_CONSTANT -
    (st.species.map (fun s => s.elementaryCharge * s.initVesicleConc)).sum * 1000 *
      st.vesicle.initVolume

/-- Method `Simulation::getFluxCalculationParameters`: snapshots voltage, pH, time
and area; `nernstConstant = R*T/F`; the total hydrogen concentrations are
`10^(-pH)` on each side, the vesicle free concentration divides the total by
`1 + bufferCapacity / total`, and the exterior free concentration is the
exterior total with no buffer correction. -/
def Simulation.getFluxCalculationParameters (F : RealFuns) (st : SimState) :
    FluxCalculationParameters :=
  let vesicleHPlusTotalConc := F.pow10 (-st.vesicle.pH)
  let exteriorHPlusTotalConc := F.pow10 (-st.exteriorPH)
  { voltage := st.vesicle.voltage
    pH := st.vesicle.pH
    time := st.time
    area := st.vesicle.area
    nernstConstant := IDEAL_GAS_CONSTANT * st.temperature / FARADAY_CONSTANT
    vesicleHydrogenFree := vesicleHPlusTotalConc / (1 + st.bufferCapacity / vesicleHPlusTotalConc)
    exteriorHydrogenFree := exteriorHPlusTotalConc }

/-- Method `Simulation::updateVolume`: when there are species, sums the current and
initial concentrations of all non-hydrogen species, adds
`|unaccountedIonAmount|` to both sums, and when the initial sum is positive
rescales the volume by their ratio. -/
def Simulation.updateVolume (st : SimState) : SimState :=
  if st.species.isEmpty then st
  else
    let nonH := st.species.filter (fun s => s.displayName != "h")
    let sumCurrentConc := (nonH.map (·.vesicleConc)).sum + |st.unaccountedIonAmount|
    let sumInitConc := (nonH.map (·.initVesicleConc)).sum + |st.unaccountedIonAmount|
    if 0 < sumInitConc then
      { st with vesicle :=
          { st.vesicle with volume := st.vesicle.initVolume * (sumCurrentConc / sumInitConc) } }
    else st

/-- Lifting of `Simulation::setIonAmounts` to the simulation state. -/
def Simulation.setIonAmounts (st : SimState) : SimState :=
  { st with species := setIonAmountsList st.species st.vesicle.volume }

/-- Lifting of `Simulation::updateVesicleConcentrations` to the simulation state. -/
def Simulation.updateVesicleConcentrations (st : SimState) : SimState :=
  { st with species := updateVesicleConcentrationsList st.species st.vesicle.volume }

/-- Lifting of `Simulation::updateIonAmounts` to the simulation state. -/
def Simulation.updateIonAmounts (st : SimState) (fluxes : List ℚ) : SimState :=
  { st with species := updateIonAmountsList st.species fluxes st.timeStep }

/-- Method `Simulation::updateBuffer`:
`bufferCapacity = initBufferCapacity * volume / initVolume`. -/
def Simulation.updateBuffer (st : SimState) : SimState :=
  { st with bufferCapacity := st.initBufferCapacity * st.vesicle.volume / st.vesicle.initVolume }

/-- Method `Simulation::updateArea` delegates to `Vesicle::updateArea`. -/
def Simulation.updateArea (F : RealFuns) (st : SimState) : SimState :=
  { st with vesicle := Vesicle.updateArea F st.vesicle }

/-- Method `Simulation::updateCapacitance` delegates to `Vesicle::updateCapacitance`. -/
def Simulation.updateCapacitance (st : SimState) : SimState :=
  { st with vesicle := Vesicle.updateCapacitance st.vesicle }

/-- Method `Simulation::updateCharge`: at `time == 0` the charge is reset to the
initial charge; otherwise
`charge = (Σ vesicleAmount_i * elementaryCharge_i + unaccountedIonAmount) * FARADAY_CONSTANT`. -/
def Simulation.updateCharge (st : SimState) : SimState :=
  if st.time = 0 then
    { st with vesicle := { st.vesicle with charge := st.vesicle.initCharge } }
  else
    let totalIonicCharge :=
      (st.species.map (fun s => s.vesicleAmount * s.elementaryCharge)).sum +
        st.unaccountedIonAmount
    { st with vesicle := { st.vesicle with charge := totalIonicCharge * FARADAY_CONSTANT } }

/-- Method `Simulation::updateVoltage`: at `time == 0` the voltage is reset to the
initial voltage; otherwise `voltage = charge / capacitance`. -/
def Simulation.updateVoltage (st : SimState) : SimState :=
  if st.time = 0 then
    { st with vesicle := { st.vesicle with voltage := st.vesicle.initVoltage } }
  else
    { st with vesicle := { st.vesicle with voltage := st.vesicle.charge / st.vesicle.capacitance } }

/-- Method `Simulation::updatePH`: at `time == 0` the pH is reset to the initial
pH; otherwise, when a species named `h` exists, the free hydrogen
concentration is `vesicleConc_h * bufferCapacity`; if it is `≤ 0` the pH
falls back to `7.0`, else `pH = -log10(freeHConc)`. -/
def Simulation.updatePH (F : RealFuns) (st : SimState) : SimState :=
  if st.time = 0 then
    { st with vesicle := { st.vesicle with pH := st.vesicle.initPH } }
  else
    match st.species.find? (fun s => s.displayName == "h") with
    | none => st
    | some hspecies =>
      let freeHConc := hspecies.vesicleConc * st.bufferCapacity
      if freeHConc ≤ 0 then
        { st with vesicle := { st.vesicle with pH := 7 } }
      else
        { st with vesicle := { st.vesicle with pH := -(F.log10 freeHConc) } }

/-- The shared first block of `Simulation::updateSimulationState` and of the
partial-update branches: volume, concentrations, buffer, area, capacitance,
in that order. -/
def physicalUpdate (F : RealFuns) (st : SimState) : SimState :=
  Simulation.updateCapacitance
    (Simulation.updateArea F
      (Simulation.updateBuffer
        (Simulation.updateVesicleConcentrations
          (Simulation.updateVolume st))))

/-- Method `Simulation::updateSimulationState`: the fixed update order — volume,
concentrations, buffer, area, capacitance, then charge, voltage, pH. -/
def Simulation.updateSimulationState (F : RealFuns) (st : SimState) : SimState :=
  Simulation.updatePH F
    (Simulation.updateVoltage
      (Simulation.updateCharge
        (physicalUpdate F st)))

/-- Partial update branch of `Simulation::run` for single-iteration runs: the
physical properties are updated and the electrical values saved beforehand
are written back. -/
def runPartialUpdate (F : RealFuns) (st : SimState) : SimState :=
  let savedCharge := st.vesicle.charge
  let savedVoltage := st.vesicle.voltage
  let savedPH := st.vesicle.pH
  let st1 := physicalUpdate F st
  { st1 with vesicle :=
      { st1.vesicle with charge := savedCharge, voltage := savedVoltage, pH := savedPH } }

/-- One body of the main loop of `Simulation::run` (history recording is
modelled separately, see `runHistories`): update the state, compute all
species fluxes (abstracted as `fluxFn`, standing for
`IonSpecies::computeTotalFlux` over each species' connected channels),
update the ion amounts, run the second state update (or the partial update
with restore on a single-iteration run), and advance the time. -/
def runLoopBody (F : RealFuns) (fluxFn : SimState → List ℚ) (iterNum iter : ℕ)
    (st : SimState) : SimState :=
  let st1 := Simulation.updateSimulationState F st
  let fluxes := fluxFn st1
  let st2 := Simulation.updateIonAmounts st1 fluxes
  let st3 := if iterNum = 1 ∧ iter = 0 then runPartialUpdate F st2
    else Simulation.updateSimulationState F st2
  { st3 with time := st3.time + st3.timeStep }

/-- The number of iterations in `Simulation::run`:
`static_cast<int>(totalTime / timeStep)` (truncation; for the validated
positive configuration values this is the floor). -/
def iterNumOf (st : SimState) : ℕ :=
  (⌊st.totalTime / st.timeStep⌋).toNat

/-- The pre-loop part of `Simulation::run`: `setIonAmounts()` followed by
storing `getUnaccountedIonAmount()` into the `unaccountedIonAmount_` member
(Simulation.cpp lines 327 and 331). -/
def runInit (st : SimState) : SimState :=
  let st1 := Simulation.setIonAmounts st
  { st1 with unaccountedIonAmount := Simulation.getUnaccountedIonAmount st1 }

/-- Method `Simulation::run` (state part): set the ion amounts, store the
unaccounted ion amount, run `iterNum` loop iterations, perform one final
state update, and for a single-iteration run restore the initial electrical
values. -/
def Simulation.run (F : RealFuns) (fluxFn : SimState → List ℚ) (st : SimState) : SimState :=
  let st2 := runInit st
  let iterNum := iterNumOf st2
  let st3 := (List.range iterNum).foldl
    (fun s iter => runLoopBody F fluxFn iterNum iter s) st2
  let st4 := Simulation.updateSimulationState F st3
  if iterNum = 1 then
    let v := st4.vesicle
    { st4 with vesicle :=
        { v with charge := v.initCharge, voltage := v.initVoltage, pH := v.initPH } }
  else st4

/-- A registered `Trackable` object as the history recorder sees it: a display
name and the current-state snapshot (field name / value pairs), as returned
by `getCurrentState`. -/
structure Trackable where
  displayName : String
  state : List (String × ℚ)
deriving Repr, DecidableEq

/-- The `histories_` map of `HistoriesStorage`, modelled as an association
list from history key to the recorded series. -/
abbrev Histories : Type := List (String × List ℚ)

/-- One `histories_[key].push_back(v)`: append to the series at `key`,
creating an empty series first when the key is absent (the behaviour of
`operator[]` on `std::unordered_map`). -/
def pushValue : Histories → String → ℚ → Histories
  | [], key, v => [(key, [v])]
  | (k, vs) :: rest, key, v =>
    if k = key then (k, vs ++ [v]) :: rest
    else (k, vs) :: pushValue rest key v

/-- Series lookup: the recorded series at `key` (empty when absent). -/
def lookupHistory : Histories → String → List ℚ
  | [], _ => []
  | (k, vs) :: rest, key => if k = key then vs else lookupHistory rest key

/-- The composite-key/value pairs produced by one pass of
`HistoriesStorage::updateHistories` over the registered objects:
`displayName ++ "_" ++ fieldName` paired with the field value. -/
def stateEntries (objs : List Trackable) : List (String × ℚ) :=
  objs.flatMap (fun o => o.state.map (fun fv => (o.displayName ++ "_" ++ fv.1, fv.2)))

/-- Folding `push_back` over a list of key/value pairs. -/
def pushAll (h : Histories) (entries : List (String × ℚ)) : Histories :=
  entries.foldl (fun h kv => pushValue h kv.1 kv.2) h

/-- Method `HistoriesStorage::updateHistories`: appends every registered
object's current field values to the corresponding series. -/
def updateHistories (objs : List Trackable) (h : Histories) : Histories :=
  pushAll h (stateEntries objs)

/-- Method `HistoriesStorage::addHistory`: one `push_back` on a named series. -/
def addHistory (h : Histories) (name : String) (value : ℚ) : Histories :=
  pushValue h name value

/-- History operations performed by `Simulation::run`, in source order: one
`addHistory("simulation_time", ...)` before the loop (line 349), per
iteration one `addHistory` then one `updateHistories` (lines 370-371), and
after the loop one `updateHistories` (line 412) and one final `addHistory`
(line 424).  The recorded values depend on the evolving simulation state;
they are supplied as abstract streams (`timeVals k` for the k-th
`addHistory`, `objsAt k` for the registered objects' state at the k-th
`updateHistories` call) since the claim is about series lengths. -/
def runHistories (iterNum : ℕ) (timeVals : ℕ → ℚ) (objsAt : ℕ → List Trackable)
    (h0 : Histories) : Histories :=
  let h1 := addHistory h0 "simulation_time" (timeVals 0)
  let h2 := (List.range iterNum).foldl
    (fun h iter =>
      updateHistories (objsAt iter) (addHistory h "simulation_time" (timeVals (iter + 1)))) h1
  addHistory (updateHistories (objsAt iterNum) h2) "simulation_time" (timeVals (iterNum + 1))

/-! ## Demonstration objects for concrete witnesses -/

/-- A concrete instantiation of the abstract math-library functions, used only
to evaluate witnesses and counterexamples at concrete inputs.  Its `log` has
`log 1 = 0` and `log 4 ≠ 0`, and its `pow10` has `pow10 0 = 1`, like their
analytic counterparts. -/
def demoRealFuns : RealFuns :=
  { exp := fun x => x
    log := fun x => x - 1
    log10 := fun x => x
    pow10 := fun x => 1 + x
    powQ := fun b _ => b }

/-- A concrete parameter snapshot for witnesses. -/
def demoParams : FluxCalculationParameters :=
  { voltage := 0.04, pH := 7.4, time := 0, area := 1, nernstConstant := 0.0267
    vesicleHydrogenFree := 1e-7, exteriorHydrogenFree := 1e-7 }

/-- A concrete voltage-gated channel with zero conductance and no connected
species, used by the C3 witness. -/
def demoZeroChannel : IonChannel :=
  { conductance := 0, channelType := "", dependenceType := "voltage"
    voltageMultiplier := 1, nernstMultiplier := 1, voltageShift := 0, fluxMultiplier := 1
    allowedPrimaryIon := "na", allowedSecondaryIon := "", primaryExponent := 1
    secondaryExponent := 1, customNernstConstant := 0, useFreeHydrogen := false
    voltageExponent := 80, halfActVoltage := -0.04, pHExponent := 0, halfActPH := 0
    timeExponent := 0, halfActTime := 0, displayName := "ch0"
    primarySpecies := none, secondarySpecies := none }

/-- A concrete two-ion channel (allowed secondary ion set), used by the C8
witness. -/
def demoTwoIonChannel : IonChannel :=
  { demoZeroChannel with
      conductance := 1
      allowedSecondaryIon := "cl"
      displayName := "clc" }

/-! ## C3 — zero-conductance channels yield zero flux -/

/-- C3: for every channel whose conductance is 0, `computeFlux` returns 0
(`Except.ok 0`), for every snapshot, every dependence type, all gating
parameters, and regardless of connected species; no gating factor or Nernst
potential is evaluated (the result does not depend on the math-library
functions `F`). -/
theorem computeFlux_zero_conductance (F : RealFuns) (ch : IonChannel)
    (params : FluxCalculationParameters) (h : ch.conductance = 0) :
    computeFlux F ch params = Except.ok 0 := by
  unfold computeFlux
  simp [h]

/-- Witness for C3 at a concrete unconnected zero-conductance channel. -/
theorem computeFlux_zero_conductance_witness :
    demoZeroChannel.conductance = 0 ∧
      computeFlux demoRealFuns demoZeroChannel demoParams = Except.ok 0 :=
  ⟨rfl, computeFlux_zero_conductance demoRealFuns demoZeroChannel demoParams rfl⟩

/-! ## C6 — setter clamping invariants -/

/-- C6: for every species and every value passed to its setters, the vesicle
concentration after `setVesicleConc` is strictly positive (a value `≤ 0` is
replaced by the floor `1e-9`), the vesicle amount after `setVesicleAmount`
is nonnegative (a negative value is replaced by `0`), and in exactly those
clamping cases a warning is recorded; both setters are total functions
(they never fail). -/
theorem species_setters_clamped (s : IonSpeciesState) (value : ℚ) :
    0 < (setVesicleConc s value).1.vesicleConc ∧
    ((setVesicleConc s value).2 = true ↔ value ≤ 0) ∧
    (value ≤ 0 → (setVesicleConc s value).1.vesicleConc = 1e-9) ∧
    0 ≤ (setVesicleAmount s value).1.vesicleAmount ∧
    ((setVesicleAmount s value).2 = true ↔ value < 0) ∧
    (value < 0 → (setVesicleAmount s value).1.vesicleAmount = 0) := by
  refine ⟨?_, ?_, ?_, ?_, ?_, ?_⟩
  · by_cases h : value ≤ 0
    · simp only [setVesicleConc, if_pos h]
      norm_num
    · simp only [setVesicleConc, if_neg h]
      exact lt_of_not_le h
  · by_cases h : value ≤ 0 <;> simp [setVesicleConc, h]
  · intro h
    simp [setVesicleConc, h]
  · by_cases h : value < 0
    · simp [setVesicleAmount, h]
    · simp only [setVesicleAmount, if_neg h]
      exact le_of_not_lt h
  · by_cases h : value < 0 <;> simp [setVesicleAmount, h]
  · intro h
    simp [setVesicleAmount, h]

/-- Witness for C6 at a clamping input. -/
theorem species_setters_clamped_witness :
    0 < (setVesicleConc demoSpecies (-1)).1.vesicleConc ∧
    ((setVesicleConc demoSpecies (-1)).2 = true ↔ (-1 : ℚ) ≤ 0) ∧
    ((-1 : ℚ) ≤ 0 → (setVesicleConc demoSpecies (-1)).1.vesicleConc = 1e-9) ∧
    0 ≤ (setVesicleAmount demoSpecies (-1)).1.vesicleAmount ∧
    ((setVesicleAmount demoSpecies (-1)).2 = true ↔ (-1 : ℚ) < 0) ∧
    ((-1 : ℚ) < 0 → (setVesicleAmount demoSpecies (-1)).1.vesicleAmount = 0) :=
  species_setters_clamped demoSpecies (-1)

/-! ## C10 — flux-count mismatch skips the whole amount update -/

/-- C10: when `updateIonAmounts` receives a flux vector whose length differs
from the number of species, the species list is returned unchanged (every
vesicle amount untouched); the function reports to `stderr` and returns
normally, raising no error (its Lean model is a total function with no
`Except`). -/
theorem updateIonAmounts_mismatch_noop (speciesList : List IonSpeciesState)
    (fluxes : List ℚ) (timeStep : ℚ) (h : fluxes.length ≠ speciesList.length) :
    updateIonAmountsList speciesList fluxes timeStep = speciesList := by
  unfold updateIonAmountsList
  simp [h]

/-- Witness for C10: one species, no fluxes. -/
theorem updateIonAmounts_mismatch_noop_witness :
    ([] : List ℚ).length ≠ [demoSpecies].length ∧
      updateIonAmountsList [demoSpecies] [] 1 = [demoSpecies] :=
  ⟨by decide, updateIonAmounts_mismatch_noop [demoSpecies] [] 1 (by decide)⟩

/-! ## C8 — two-ion channel with no secondary species must fail -/

/-- C8: for every channel whose allowed-secondary-ion is non-empty, calling
`connectChannel` with only a primary species fails with the compatibility
error (the no-secondary branch of the message), so the channel is never
appended to the species' channel list and never operates as a single-ion
channel. -/
theorem connectChannel_two_ion_requires_secondary (sp : IonSpeciesObj) (channel : IonChannel)
    (h : channel.allowedSecondaryIon ≠ "") :
    connectChannel sp channel none = Except.error ("Channel " ++ channel.displayName ++
      " does not support the ion species " ++ sp.state.displayName ++
      ". Expected primary ion type is " ++ channel.allowedPrimaryIon) := by
  unfold connectChannel validateChannelCompatibility
  simp [h]

/-- Witness for C8 at the concrete two-ion channel. -/
theorem connectChannel_two_ion_requires_secondary_witness :
    demoTwoIonChannel.allowedSecondaryIon ≠ "" ∧
      connectChannel ⟨demoSpecies, []⟩ demoTwoIonChannel none =
        Except.error ("Channel " ++ demoTwoIonChannel.displayName ++
          " does not support the ion species " ++ demoSpecies.displayName ++
          ". Expected primary ion type is " ++ demoTwoIonChannel.allowedPrimaryIon) :=
  ⟨by decide, connectChannel_two_ion_requires_secondary ⟨demoSpecies, []⟩ demoTwoIonChannel
    (by decide)⟩

/-! ## C9 — setIonAmounts then updateVesicleConcentrations restores concentrations -/

/-- C9: for every species list with strictly positive vesicle concentrations
and every strictly positive volume, `setIonAmounts`
(`amount := conc * 1000 * vol`) followed by `updateVesicleConcentrations`
(`conc := amount / (1000 * vol)`) with the volume unchanged restores every
species' vesicle concentration. -/
theorem set_then_update_restores_concs (speciesList : List IonSpeciesState) (vol : ℚ)
    (hvol : 0 < vol) (hpos : ∀ s ∈ speciesList, 0 < s.vesicleConc) :
    (updateVesicleConcentrationsList (setIonAmountsList speciesList vol) vol).map
        (·.vesicleConc) = speciesList.map (·.vesicleConc) := by
  induction speciesList with
  | nil => rfl
  | cons s rest ih =>
    have hs : 0 < s.vesicleConc := hpos s (List.mem_cons_self s rest)
    have hrest := ih (fun x hx => hpos x (List.mem_cons_of_mem s hx))
    have hamount : ¬ s.vesicleConc * 1000 * vol < 0 := by
      push_neg
      positivity
    have hval : s.vesicleConc * 1000 * vol / (1000 * vol) = s.vesicleConc := by
      rw [mul_assoc]
      exact mul_div_cancel_right₀ _ (by positivity)
    have hconc : ¬ s.vesicleConc * 1000 * vol / (1000 * vol) ≤ 0 := by
      rw [hval]
      exact not_le.mpr hs
    simp only [updateVesicleConcentrationsList, setIonAmountsList, List.map_cons,
      setVesicleAmount, setVesicleConc, hamount, if_false, if_neg] at hrest ⊢
    rw [if_neg hconc]
    simp only [List.cons.injEq]
    exact ⟨hval, hrest⟩

/-- Witness for C9 at a one-species list. -/
theorem set_then_update_restores_concs_witness :
    (0 : ℚ) < 2 ∧
      (updateVesicleConcentrationsList (setIonAmountsList [demoSpecies] 2) 2).map
        (·.vesicleConc) = [demoSpecies].map (·.vesicleConc) :=
  ⟨by norm_num, set_then_update_restores_concs [demoSpecies] 2 (by norm_num)
    (by intro s hs; simp only [List.mem_singleton] at hs; rw [hs]; norm_num [demoSpecies])⟩

/-! ## C4 — computeLogTerm -/

/-- Effective vesicle-side concentration used by `IonChannel::computeLogTerm`:
the snapshot's free-hydrogen value is substituted when the free-hydrogen flag
is set and the species is the hydrogen species. -/
def effectiveVesicleConc (ch : IonChannel) (sp : IonSpeciesState)
    (params : FluxCalculationParameters) : ℚ :=
  if ch.useFreeHydrogen ∧ sp.displayName = "h" then params.vesicleHydrogenFree
  else sp.vesicleConc

/-- Effective exterior-side concentration used by `IonChannel::computeLogTerm`. -/
def effectiveExteriorConc (ch : IonChannel) (sp : IonSpeciesState)
    (params : FluxCalculationParameters) : ℚ :=
  if ch.useFreeHydrogen ∧ sp.displayName = "h" then params.exteriorHydrogenFree
  else sp.exteriorConc

/-- Modelled from the claim wording of C4 (spec §4.1): identical to
`computeLogTerm` except that the single-ion branch also forms
`ratio = (exteriorConc / vesicleConc)^primaryExponent` first and returns `0`
exactly when `ratio ≤ 0`, else `log ratio` — rather than guarding on the
signs of the two operands as the source does. -/
def computeLogTermClaim (F : RealFuns) (ch : IonChannel)
    (params : FluxCalculationParameters) : Except String ℚ :=
  match ch.primarySpecies with
  | none => .error "Cannot compute log term: primary species not connected"
  | some prim =>
    if prim.displayName ≠ ch.allowedPrimaryIon then
      .error "Primary species mismatch"
    else if ch.allowedSecondaryIon ≠ "" ∧ ch.secondarySpecies = none then
      .error "Secondary species not connected for two-ion channel"
    else if ch.secondarySpecies.any (fun sec => sec.displayName != ch.allowedSecondaryIon) then
      .error "Secondary species mismatch"
    else
      match ch.secondarySpecies with
      | some sec =>
        let r := (effectiveExteriorConc ch prim params / effectiveVesicleConc ch prim params) ^
            ch.primaryExponent *
          (effectiveVesicleConc ch sec params / effectiveExteriorConc ch sec params) ^
            ch.secondaryExponent
        if r ≤ 0 then .ok 0 else .ok (F.log r)
      | none =>
        let r := (effectiveExteriorConc ch prim params / effectiveVesicleConc ch prim params) ^
          ch.primaryExponent
        if r ≤ 0 then .ok 0 else .ok (F.log r)

/-- A species with a negative exterior concentration (allowed by the loader,
which validates no sign on `exterior_conc`). -/
def ceNegSpecies : IonSpeciesState :=
  { displayName := "na", initVesicleConc := 1, exteriorConc := -2
    elementaryCharge := 1, vesicleConc := 1, vesicleAmount := 0 }

/-- A single-ion channel whose connected species has a negative exterior
concentration and an even stoichiometric exponent, separating the source's
sign guard from the claim's ratio guard. -/
def ceLogChannel : IonChannel :=
  { demoZeroChannel with
      conductance := 1
      primaryExponent := 2
      primarySpecies := some ceNegSpecies }

/-- Counterexample for C4: at `exteriorConc = -2`, `vesicleConc = 1`,
`primaryExponent = 2`, the source's single-ion guard (`exteriorConc ≤ 0`)
returns `0`, while the claim's ratio is `(-2/1)^2 = 4 > 0`, so the claim
prescribes `ln 4 ≠ 0` (under the witness functions, `log 4 = 3`; the natural
logarithm likewise has `ln 4 ≠ 0`). -/
theorem computeLogTerm_claim_counterexample :
    computeLogTerm demoRealFuns ceLogChannel demoParams = Except.ok 0 ∧
    computeLogTermClaim demoRealFuns ceLogChannel demoParams = Except.ok 3 ∧
    (Except.ok (3 : ℚ) : Except String ℚ) ≠ Except.ok 0 := by
  refine ⟨?_, ?_, ?_⟩
  · simp only [computeLogTerm, ceLogChannel, demoZeroChannel, ceNegSpecies, demoParams]
    norm_num
  · simp only [computeLogTermClaim, ceLogChannel, demoZeroChannel, ceNegSpecies, demoParams,
      effectiveVesicleConc, effectiveExteriorConc, demoRealFuns]
    norm_num
  · simp only [ne_eq, Except.ok.injEq]
    norm_num

/-- C4 (amended): for every connected channel passing the identity checks,
`computeLogTerm` computes the stated ratio from the effective (free-hydrogen
substituted) concentrations; in the two-ion branch it returns `0` when the
ratio is `≤ 0` and `ln ratio` otherwise, while in the single-ion branch it
returns `0` when either effective concentration is `≤ 0` and
`ln((exteriorConc / vesicleConc)^primaryExponent)` otherwise (for positive
concentrations the two guards agree; they differ only on non-positive
inputs, see the counterexample). -/
theorem computeLogTerm_formula (F : RealFuns) (ch : IonChannel)
    (params : FluxCalculationParameters) (prim : IonSpeciesState)
    (hprim : ch.primarySpecies = some prim)
    (hname : prim.displayName = ch.allowedPrimaryIon) :
    (ch.allowedSecondaryIon = "" → ch.secondarySpecies = none →
      computeLogTerm F ch params = Except.ok
        (if effectiveExteriorConc ch prim params ≤ 0 ∨ effectiveVesicleConc ch prim params ≤ 0
          then 0
          else F.log ((effectiveExteriorConc ch prim params /
            effectiveVesicleConc ch prim params) ^ ch.primaryExponent))) ∧
    (∀ sec, ch.secondarySpecies = some sec → sec.displayName = ch.allowedSecondaryIon →
      computeLogTerm F ch params = Except.ok
        (if (effectiveExteriorConc ch prim params / effectiveVesicleConc ch prim params) ^
              ch.primaryExponent *
            (effectiveVesicleConc ch sec params / effectiveExteriorConc ch sec params) ^
              ch.secondaryExponent ≤ 0
          then 0
          else F.log ((effectiveExteriorConc ch prim params /
              effectiveVesicleConc ch prim params) ^ ch.primaryExponent *
            (effectiveVesicleConc ch sec params / effectiveExteriorConc ch sec params) ^
              ch.secondaryExponent))) := by
  constructor
  · intro hsec hnone
    unfold computeLogTerm
    rw [hprim, hnone]
    simp only [hname, hsec, effectiveVesicleConc, effectiveExteriorConc]
    rw [apply_ite (Except.ok : ℚ → Except String ℚ)]
    simp
  · intro sec hsec hsecname
    unfold computeLogTerm
    rw [hprim, hsec]
    simp only [effectiveVesicleConc, effectiveExteriorConc]
    simp only [hname, hsecname]
    rw [apply_ite (Except.ok : ℚ → Except String ℚ)]
    simp [hname, hsecname]

/-- A connected single-ion channel for the C4 witness. -/
def demoConnChannel : IonChannel :=
  { demoZeroChannel with
      conductance := 1
      primarySpecies := some demoSpecies }

/-- Witness for C4 (amended) at a concrete connected single-ion channel:
`exteriorConc = 2`, `vesicleConc = 1`, exponent `1`, so the result is
`log 2` (which the witness functions evaluate to `1`). -/
theorem computeLogTerm_formula_witness :
    demoConnChannel.primarySpecies = some demoSpecies ∧
    demoSpecies.displayName = demoConnChannel.allowedPrimaryIon ∧
    computeLogTerm demoRealFuns demoConnChannel demoParams = Except.ok 1 := by
  refine ⟨rfl, rfl, ?_⟩
  have h := (computeLogTerm_formula demoRealFuns demoConnChannel demoParams demoSpecies
    rfl rfl).1 rfl rfl
  rw [h]
  simp only [effectiveVesicleConc, effectiveExteriorConc, demoConnChannel, demoZeroChannel,
    demoSpecies, demoRealFuns]
  norm_num

/-! ## C5 — free-hydrogen concentrations in the flux snapshot -/

/-- Modelled from the claim wording of C5: vesicle-side free hydrogen is the
hydrogen species' (vesicle) concentration scaled by the current buffer
capacity; exterior-side free hydrogen is the hydrogen species' (exterior)
concentration scaled by the initial buffer capacity. -/
def fluxParamsHydrogenClaim (st : SimState) : ℚ × ℚ :=
  match st.species.find? (fun s => s.displayName == "h") with
  | some hspecies =>
    (hspecies.vesicleConc * st.bufferCapacity, hspecies.exteriorConc * st.initBufferCapacity)
  | none => (0, 0)

/-- A concrete vesicle state with simple field values (pH 0 so that
`10^(-pH) = 1`). -/
def demoVesicle : VesicleState :=
  { specificCapacitance := 1, initVoltage := 2, initRadius := 1, initPH := 0
    displayName := "Vesicle", initVolume := 1, initArea := 1, initCapacitance := 1
    initCharge := 5, pH := 0, volume := 1, area := 1, capacitance := 1
    charge := 5, voltage := 2 }

/-- A hydrogen species with vesicle and exterior concentration 3. -/
def ceHydrogenSpecies : IonSpeciesState :=
  { displayName := "h", initVesicleConc := 3, exteriorConc := 3
    elementaryCharge := 1, vesicleConc := 3, vesicleAmount := 0 }

/-- A concrete simulation state holding one hydrogen species with vesicle and
exterior concentration 3, both buffer capacities 1, and both pH values 0. -/
def ceSimState : SimState :=
  { timeStep := 0.001, totalTime := 0.01, time := 0, temperature := 310
    initBufferCapacity := 1, bufferCapacity := 1, displayName := "simulation"
    unaccountedIonAmount := 0, vesicle := demoVesicle, exteriorPH := 0
    species := [ceHydrogenSpecies] }

/-- Counterexample for C5: at vesicle pH 0 and buffer capacity 1 the source
computes `vesicleHydrogenFree = 10^0 / (1 + 1/10^0) = 1/2` and
`exteriorHydrogenFree = 10^0 = 1` (the witness functions have
`pow10 0 = 1` like the real `10^x`), never reading the hydrogen species'
concentration, while the claim prescribes `3 * 1 = 3` on both sides. -/
theorem fluxParams_hydrogen_counterexample :
    (Simulation.getFluxCalculationParameters demoRealFuns ceSimState).vesicleHydrogenFree
        = 1 / 2 ∧
    (Simulation.getFluxCalculationParameters demoRealFuns ceSimState).exteriorHydrogenFree
        = 1 ∧
    fluxParamsHydrogenClaim ceSimState = (3, 3) ∧
    (1 : ℚ) / 2 ≠ 3 ∧ (1 : ℚ) ≠ 3 := by
  refine ⟨?_, ?_, ?_, by norm_num, by norm_num⟩
  · simp only [Simulation.getFluxCalculationParameters, ceSimState, demoVesicle, demoRealFuns]
    norm_num
  · simp only [Simulation.getFluxCalculationParameters, ceSimState, demoVesicle, demoRealFuns]
    norm_num
  · simp only [fluxParamsHydrogenClaim, ceSimState, ceHydrogenSpecies, List.find?]
    norm_num

/-- C5 (amended): the per-step snapshot computes the vesicle-side free
hydrogen concentration as `10^(-vesiclePH) / (1 + bufferCapacity / 10^(-vesiclePH))`
and the exterior-side as `10^(-exteriorPH)` with no buffer scaling; the
species list (hence the hydrogen species' concentration) is not read — the
whole snapshot is invariant under replacing the species list. -/
theorem fluxParams_hydrogen_formula (F : RealFuns) (st : SimState)
    (otherSpecies : List IonSpeciesState) :
    (Simulation.getFluxCalculationParameters F st).vesicleHydrogenFree =
      F.pow10 (-st.vesicle.pH) / (1 + st.bufferCapacity / F.pow10 (-st.vesicle.pH)) ∧
    (Simulation.getFluxCalculationParameters F st).exteriorHydrogenFree =
      F.pow10 (-st.exteriorPH) ∧
    Simulation.getFluxCalculationParameters F { st with species := otherSpecies } =
      Simulation.getFluxCalculationParameters F st :=
  ⟨rfl, rfl, rfl⟩

/-! ## C2 — charge and voltage update formulas -/

/-- Preservation lemma: `setVesicleConc` changes only the concentration. -/
lemma setVesicleConc_keeps (s : IonSpeciesState) (value : ℚ) :
    (setVesicleConc s value).1.vesicleAmount = s.vesicleAmount ∧
    (setVesicleConc s value).1.elementaryCharge = s.elementaryCharge := by
  unfold setVesicleConc
  split <;> exact ⟨rfl, rfl⟩

/-- Preservation lemma: rewriting concentrations leaves every species' charge
contribution `vesicleAmount * elementaryCharge` unchanged. -/
lemma updateVesicleConcentrationsList_amounts (l : List IonSpeciesState) (v : ℚ) :
    (updateVesicleConcentrationsList l v).map (fun s => s.vesicleAmount * s.elementaryCharge)
      = l.map (fun s => s.vesicleAmount * s.elementaryCharge) := by
  induction l with
  | nil => rfl
  | cons s rest ih =>
    simp only [updateVesicleConcentrationsList, List.map_cons, List.map_map] at ih ⊢
    simp only [List.cons.injEq]
    exact ⟨by rw [(setVesicleConc_keeps s _).1, (setVesicleConc_keeps s _).2], ih⟩

/-- Preservation lemma: `Simulation::updateVolume` changes only the vesicle
volume. -/
lemma updateVolume_keeps (st : SimState) :
    (Simulation.updateVolume st).time = st.time ∧
    (Simulation.updateVolume st).timeStep = st.timeStep ∧
    (Simulation.updateVolume st).species = st.species ∧
    (Simulation.updateVolume st).unaccountedIonAmount = st.unaccountedIonAmount := by
  refine ⟨?_, ?_, ?_, ?_⟩ <;>
    · unfold Simulation.updateVolume
      split
      · rfl
      · dsimp only
        split <;> rfl

/-- Preservation lemma: the five-stage physical update keeps the time, the
time step, the unaccounted ion amount, and every species' charge
contribution. -/
lemma physicalUpdate_keeps (F : RealFuns) (st : SimState) :
    (physicalUpdate F st).time = st.time ∧
    (physicalUpdate F st).timeStep = st.timeStep ∧
    (physicalUpdate F st).unaccountedIonAmount = st.unaccountedIonAmount ∧
    (physicalUpdate F st).species.map (fun s => s.vesicleAmount * s.elementaryCharge)
      = st.species.map (fun s => s.vesicleAmount * s.elementaryCharge) := by
  obtain ⟨h1, h2, h3, h4⟩ := updateVolume_keeps st
  unfold physicalUpdate Simulation.updateCapacitance Simulation.updateArea
    Simulation.updateBuffer Simulation.updateVesicleConcentrations
  refine ⟨h1, h2, h4, ?_⟩
  simp only
  rw [updateVesicleConcentrationsList_amounts, h3]

/-- Formula lemma: away from time 0, `Simulation::updateCharge` writes the
charge formula and keeps time and capacitance. -/
lemma updateCharge_ne (st : SimState) (h : st.time ≠ 0) :
    (Simulation.updateCharge st).vesicle.charge =
      ((st.species.map (fun s => s.vesicleAmount * s.elementaryCharge)).sum +
        st.unaccountedIonAmount) * FARADAY_CONSTANT ∧
    (Simulation.updateCharge st).time = st.time ∧
    (Simulation.updateCharge st).vesicle.capacitance = st.vesicle.capacitance := by
  unfold Simulation.updateCharge
  rw [if_neg h]
  exact ⟨rfl, rfl, rfl⟩

/-- Formula lemma: away from time 0, `Simulation::updateVoltage` writes
`charge / capacitance` and keeps charge and capacitance. -/
lemma updateVoltage_ne (st : SimState) (h : st.time ≠ 0) :
    (Simulation.updateVoltage st).vesicle.voltage =
      st.vesicle.charge / st.vesicle.capacitance ∧
    (Simulation.updateVoltage st).vesicle.charge = st.vesicle.charge ∧
    (Simulation.updateVoltage st).vesicle.capacitance = st.vesicle.capacitance := by
  unfold Simulation.updateVoltage
  rw [if_neg h]
  exact ⟨rfl, rfl, rfl⟩

/-- Preservation lemma: `Simulation::updatePH` never changes the charge, the
voltage or the capacitance. -/
lemma updatePH_keeps_electrical (F : RealFuns) (st : SimState) :
    (Simulation.updatePH F st).vesicle.charge = st.vesicle.charge ∧
    (Simulation.updatePH F st).vesicle.voltage = st.vesicle.voltage ∧
    (Simulation.updatePH F st).vesicle.capacitance = st.vesicle.capacitance := by
  refine ⟨?_, ?_, ?_⟩ <;>
    · unfold Simulation.updatePH
      split
      · rfl
      · split
        · rfl
        · dsimp only
          split <;> rfl

/-- C2 (amended): in every step's state recompute with simulation time `≠ 0`,
after the ion amounts have been updated, `updateSimulationState` sets the
vesicle charge to
`(Σ elementaryCharge_i * amount_i + unaccountedIonAmount) * FARADAY_CONSTANT`
and then the voltage to `charge / capacitance` (at time 0 the source instead
resets charge and voltage to their initial values, see the counterexample). -/
theorem updateSimulationState_charge_voltage (F : RealFuns) (st : SimState)
    (h : st.time ≠ 0) :
    (Simulation.updateSimulationState F st).vesicle.charge =
      ((st.species.map (fun s => s.vesicleAmount * s.elementaryCharge)).sum +
        st.unaccountedIonAmount) * FARADAY_CONSTANT ∧
    (Simulation.updateSimulationState F st).vesicle.voltage =
      (Simulation.updateSimulationState F st).vesicle.charge /
        (Simulation.updateSimulationState F st).vesicle.capacitance := by
  obtain ⟨htime, hts, hunacc, hspec⟩ := physicalUpdate_keeps F st
  have hPt : (physicalUpdate F st).time ≠ 0 := by rw [htime]; exact h
  obtain ⟨hcCharge, hcTime, hcCap⟩ := updateCharge_ne (physicalUpdate F st) hPt
  have h6t : (Simulation.updateCharge (physicalUpdate F st)).time ≠ 0 := by
    rw [hcTime]; exact hPt
  obtain ⟨hvVolt, hvCharge, hvCap⟩ := updateVoltage_ne _ h6t
  obtain ⟨hpCharge, hpVolt, hpCap⟩ := updatePH_keeps_electrical F
    (Simulation.updateVoltage (Simulation.updateCharge (physicalUpdate F st)))
  unfold Simulation.updateSimulationState
  constructor
  · rw [hpCharge, hvCharge, hcCharge, hspec, hunacc]
  · rw [hpVolt, hpCharge, hpCap, hvVolt, hvCharge, hvCap]

/-- Witness state for C2 with nonzero simulation time. -/
def demoStepState : SimState :=
  { ceSimState with time := 0.001 }

/-- Witness for C2 (amended) at a concrete state with time `0.001 ≠ 0`. -/
theorem updateSimulationState_charge_voltage_witness :
    demoStepState.time ≠ 0 ∧
    (Simulation.updateSimulationState demoRealFuns demoStepState).vesicle.charge =
      ((demoStepState.species.map (fun s => s.vesicleAmount * s.elementaryCharge)).sum +
        demoStepState.unaccountedIonAmount) * FARADAY_CONSTANT ∧
    (Simulation.updateSimulationState demoRealFuns demoStepState).vesicle.voltage =
      (Simulation.updateSimulationState demoRealFuns demoStepState).vesicle.charge /
        (Simulation.updateSimulationState demoRealFuns demoStepState).vesicle.capacitance := by
  have hne : demoStepState.time ≠ 0 := by norm_num [demoStepState, ceSimState]
  exact ⟨hne, (updateSimulationState_charge_voltage demoRealFuns demoStepState hne).1,
    (updateSimulationState_charge_voltage demoRealFuns demoStepState hne).2⟩

/-- Counterexample for C2: at the concrete state `ceSimState` (time 0, initial
charge 5, one hydrogen species with amount 0, unaccounted ion amount 0) the
first state recompute writes charge 5 (the initial charge), while the
claim's formula gives `(0 + 0) * FARADAY_CONSTANT = 0 ≠ 5`. -/
theorem updateSimulationState_t0_counterexample :
    ceSimState.time = 0 ∧
    (Simulation.updateSimulationState demoRealFuns ceSimState).vesicle.charge = 5 ∧
    ((ceSimState.species.map (fun s => s.vesicleAmount * s.elementaryCharge)).sum +
      ceSimState.unaccountedIonAmount) * FARADAY_CONSTANT = 0 ∧
    (5 : ℚ) ≠ 0 := by
  refine ⟨rfl, ?_, ?_, by norm_num⟩
  · obtain ⟨htime, hts, hunacc, hspec⟩ := physicalUpdate_keeps demoRealFuns ceSimState
    have hPt : (physicalUpdate demoRealFuns ceSimState).time = 0 := htime
    obtain ⟨hpCharge, hpVolt, hpCap⟩ := updatePH_keeps_electrical demoRealFuns
      (Simulation.updateVoltage (Simulation.updateCharge (physicalUpdate demoRealFuns ceSimState)))
    have hvCharge : (Simulation.updateVoltage
        (Simulation.updateCharge (physicalUpdate demoRealFuns ceSimState))).vesicle.charge =
        (Simulation.updateCharge (physicalUpdate demoRealFuns ceSimState)).vesicle.charge := by
      unfold Simulation.updateVoltage
      split <;> rfl
    have hcCharge : (Simulation.updateCharge
        (physicalUpdate demoRealFuns ceSimState)).vesicle.charge =
        (physicalUpdate demoRealFuns ceSimState).vesicle.initCharge := by
      unfold Simulation.updateCharge
      rw [if_pos hPt]
    have hinit : (physicalUpdate demoRealFuns ceSimState).vesicle.initCharge = 5 := by
      unfold physicalUpdate Simulation.updateCapacitance Simulation.updateArea
        Simulation.updateBuffer Simulation.updateVesicleConcentrations Vesicle.updateCapacitance
        Vesicle.updateArea Simulation.updateVolume
      norm_num [ceSimState, demoVesicle, ceHydrogenSpecies]
    unfold Simulation.updateSimulationState
    rw [hpCharge, hvCharge, hcCharge, hinit]
  · norm_num [ceSimState, ceHydrogenSpecies]

/-! ## C1 — the unaccounted ion amount -/

/-- Preservation lemma: `Simulation::updateCharge` never writes
`unaccountedIonAmount_`. -/
lemma updateCharge_keeps_unaccounted (st : SimState) :
    (Simulation.updateCharge st).unaccountedIonAmount = st.unaccountedIonAmount := by
  unfold Simulation.updateCharge
  split <;> rfl

/-- Preservation lemma: `Simulation::updateVoltage` never writes
`unaccountedIonAmount_`. -/
lemma updateVoltage_keeps_unaccounted (st : SimState) :
    (Simulation.updateVoltage st).unaccountedIonAmount = st.unaccountedIonAmount := by
  unfold Simulation.updateVoltage
  split <;> rfl

/-- Preservation lemma: `Simulation::updatePH` never writes
`unaccountedIonAmount_`. -/
lemma updatePH_keeps_unaccounted (F : RealFuns) (st : SimState) :
    (Simulation.updatePH F st).unaccountedIonAmount = st.unaccountedIonAmount := by
  unfold Simulation.updatePH
  split
  · rfl
  · split
    · rfl
    · dsimp only
      split <;> rfl

/-- Preservation lemma: a full state recompute never writes
`unaccountedIonAmount_`. -/
lemma updateSimulationState_keeps_unaccounted (F : RealFuns) (st : SimState) :
    (Simulation.updateSimulationState F st).unaccountedIonAmount = st.unaccountedIonAmount := by
  unfold Simulation.updateSimulationState
  rw [updatePH_keeps_unaccounted, updateVoltage_keeps_unaccounted,
    updateCharge_keeps_unaccounted, (physicalUpdate_keeps F st).2.2.1]

/-- Preservation lemma: the ion-amount update never writes
`unaccountedIonAmount_`. -/
lemma updateIonAmountsS_keeps_unaccounted (st : SimState) (fluxes : List ℚ) :
    (Simulation.updateIonAmounts st fluxes).unaccountedIonAmount = st.unaccountedIonAmount :=
  rfl

/-- Preservation lemma: the partial update with electrical restore never
writes `unaccountedIonAmount_`. -/
lemma runPartialUpdate_keeps_unaccounted (F : RealFuns) (st : SimState) :
    (runPartialUpdate F st).unaccountedIonAmount = st.unaccountedIonAmount := by
  unfold runPartialUpdate
  dsimp only
  exact (physicalUpdate_keeps F st).2.2.1

/-- Preservation lemma: one loop iteration of `Simulation::run` never writes
`unaccountedIonAmount_`, whatever the flux computation produces. -/
lemma runLoopBody_keeps_unaccounted (F : RealFuns) (fluxFn : SimState → List ℚ)
    (iterNum iter : ℕ) (st : SimState) :
    (runLoopBody F fluxFn iterNum iter st).unaccountedIonAmount = st.unaccountedIonAmount := by
  unfold runLoopBody
  dsimp only
  split
  · rw [runPartialUpdate_keeps_unaccounted, updateIonAmountsS_keeps_unaccounted,
      updateSimulationState_keeps_unaccounted]
  · rw [updateSimulationState_keeps_unaccounted, updateIonAmountsS_keeps_unaccounted,
      updateSimulationState_keeps_unaccounted]

/-- Preservation lemma: any number of loop iterations keeps
`unaccountedIonAmount_`. -/
lemma runLoop_keeps_unaccounted (F : RealFuns) (fluxFn : SimState → List ℚ)
    (iterNum : ℕ) (l : List ℕ) (st : SimState) :
    ((l.foldl (fun s iter => runLoopBody F fluxFn iterNum iter s) st)).unaccountedIonAmount =
      st.unaccountedIonAmount := by
  induction l generalizing st with
  | nil => rfl
  | cons a l ih => rw [List.foldl_cons, ih, runLoopBody_keeps_unaccounted]

/-- Preservation lemma: `setVesicleAmount` changes only the amount. -/
lemma setVesicleAmount_keeps (s : IonSpeciesState) (value : ℚ) :
    (setVesicleAmount s value).1.elementaryCharge = s.elementaryCharge ∧
    (setVesicleAmount s value).1.initVesicleConc = s.initVesicleConc := by
  unfold setVesicleAmount
  split <;> exact ⟨rfl, rfl⟩

/-- Preservation lemma: rewriting amounts leaves every species'
`elementaryCharge * initVesicleConc` unchanged. -/
lemma setIonAmountsList_initConc (l : List IonSpeciesState) (v : ℚ) :
    (setIonAmountsList l v).map (fun s => s.elementaryCharge * s.initVesicleConc) =
      l.map (fun s => s.elementaryCharge * s.initVesicleConc) := by
  induction l with
  | nil => rfl
  | cons s rest ih =>
    simp only [setIonAmountsList, List.map_cons, List.map_map] at ih ⊢
    simp only [List.cons.injEq]
    exact ⟨by rw [(setVesicleAmount_keeps s _).1, (setVesicleAmount_keeps s _).2], ih⟩

/-- Invariance lemma: `getUnaccountedIonAmount` reads only initial data, so
running `setIonAmounts` first does not change its value. -/
lemma getUnaccounted_setIonAmounts (st : SimState) :
    Simulation.getUnaccountedIonAmount (Simulation.setIonAmounts st) =
      Simulation.getUnaccountedIonAmount st := by
  unfold Simulation.getUnaccountedIonAmount Simulation.setIonAmounts
  dsimp only
  rw [setIonAmountsList_initConc]

/-- Modelled from the claim wording of C1: the unaccounted ion amount as
`(initialCharge / FARADAY_CONSTANT) - (Σ elementaryCharge_i * initVesicleConc_i) * initialVolume`,
with no unit-conversion factor. -/
def unaccountedIonAmountClaim (st : SimState) : ℚ :=
  st.vesicle.initCharge / FARADAY_CONSTANT -
    (st.species.map (fun s => s.elementaryCharge * s.initVesicleConc)).sum *
      st.vesicle.initVolume

/-- A vesicle whose initial charge is one Faraday. -/
def ceC1Vesicle : VesicleState :=
  { demoVesicle with initCharge := 96485, charge := 96485 }

/-- A state with one species of valence 1 and initial concentration 1, unit
initial volume, and initial charge of one Faraday. -/
def ceC1State : SimState :=
  { ceSimState with vesicle := ceC1Vesicle, species := [demoSpecies] }

/-- Counterexample for C1: with initial charge `96485 C` (one Faraday), one
species with `elementaryCharge = 1`, `initVesicleConc = 1`, and initial
volume `1`, the source computes `1 - 1 * 1000 * 1 = -999`
(`Simulation.cpp:598` multiplies by 1000), while the claim's formula gives
`1 - 1 * 1 = 0`. -/
theorem unaccounted_claim_counterexample :
    Simulation.getUnaccountedIonAmount ceC1State = -999 ∧
    unaccountedIonAmountClaim ceC1State = 0 ∧
    (-999 : ℚ) ≠ 0 := by
  refine ⟨?_, ?_, by norm_num⟩ <;>
    norm_num [Simulation.getUnaccountedIonAmount, unaccountedIonAmountClaim, ceC1State,
      ceSimState, ceC1Vesicle, demoVesicle, demoSpecies, FARADAY_CONSTANT]

/-- C1 (amended): the unaccounted ion amount is
`(initialCharge / FARADAY_CONSTANT) - (Σ elementaryCharge_i * initVesicleConc_i) * 1000 * initialVolume`
(note the factor 1000); `run` computes it exactly once, before the iteration
loop (`runInit`, whose stored value equals the formula over the configured
state since `setIonAmounts` touches no initial data), and the stored scalar
is unchanged after every prefix of the loop iterations — whatever fluxes the
channels produce — as well as at the end of `run`; every step's volume and
charge update reads exactly this field (`Simulation.updateVolume` /
`Simulation.updateCharge`). -/
theorem unaccounted_computed_once_reused (F : RealFuns) (fluxFn : SimState → List ℚ)
    (st : SimState) :
    Simulation.getUnaccountedIonAmount st =
      st.vesicle.initCharge / FARADAY_CONSTANT -
        (st.species.map (fun s => s.elementaryCharge * s.initVesicleConc)).sum * 1000 *
          st.vesicle.initVolume ∧
    (runInit st).unaccountedIonAmount = Simulation.getUnaccountedIonAmount st ∧
    (∀ n : ℕ, ((List.range n).foldl
        (fun s iter => runLoopBody F fluxFn (iterNumOf (runInit st)) iter s)
        (runInit st)).unaccountedIonAmount = Simulation.getUnaccountedIonAmount st) ∧
    (Simulation.run F fluxFn st).unaccountedIonAmount =
      Simulation.getUnaccountedIonAmount st := by
  have hinit : (runInit st).unaccountedIonAmount = Simulation.getUnaccountedIonAmount st := by
    unfold runInit
    dsimp only
    exact getUnaccounted_setIonAmounts st
  refine ⟨rfl, hinit, ?_, ?_⟩
  · intro n
    rw [runLoop_keeps_unaccounted]
    exact hinit
  · unfold Simulation.run
    dsimp only
    split
    · dsimp only
      rw [updateSimulationState_keeps_unaccounted, runLoop_keeps_unaccounted]
      exact hinit
    · rw [updateSimulationState_keeps_unaccounted, runLoop_keeps_unaccounted]
      exact hinit

/-! ## C7 — history series lengths -/

/-- Length lemma: one `push_back` grows exactly the pushed key's series. -/
lemma lookupHistory_pushValue (h : Histories) (k key : String) (v : ℚ) :
    (lookupHistory (pushValue h k v) key).length =
      (lookupHistory h key).length + (if key = k then 1 else 0) := by
  induction h with
  | nil =>
    by_cases hk : k = key
    · subst hk
      simp [pushValue, lookupHistory]
    · simp [pushValue, lookupHistory, hk, Ne.symm hk]
  | cons e rest ih =>
    obtain ⟨ek, evs⟩ := e
    by_cases hek : ek = k
    · subst hek
      by_cases hk2 : ek = key
      · subst hk2
        simp [pushValue, lookupHistory]
      · simp [pushValue, lookupHistory, hk2, Ne.symm hk2]
    · by_cases hk2 : ek = key
      · subst hk2
        simp [pushValue, lookupHistory, hek, Ne.symm hek]
      · simp [pushValue, lookupHistory, hek, hk2, ih]

/-- Length lemma: pushing a list of entries grows each key's series by the
number of entries carrying that key. -/
lemma lookupHistory_pushAll (es : List (String × ℚ)) (h : Histories) (key : String) :
    (lookupHistory (pushAll h es) key).length =
      (lookupHistory h key).length + (es.map Prod.fst).count key := by
  induction es generalizing h with
  | nil => simp [pushAll]
  | cons e rest ih =>
    simp only [pushAll, List.foldl_cons] at ih ⊢
    rw [ih, lookupHistory_pushValue]
    simp only [List.map_cons, List.count_cons]
    by_cases hk : key = e.1
    · simp [hk]
      omega
    · simp [hk, Ne.symm hk]

/-- Length lemma: one `updateHistories` pass grows each key's series by its
multiplicity among the registered objects' composite keys. -/
lemma lookupHistory_updateHistories (objs : List Trackable) (h : Histories) (key : String) :
    (lookupHistory (updateHistories objs h) key).length =
      (lookupHistory h key).length + ((stateEntries objs).map Prod.fst).count key := by
  unfold updateHistories
  exact lookupHistory_pushAll _ h key

/-- Length lemma: one `addHistory` grows exactly the named series. -/
lemma lookupHistory_addHistory (h : Histories) (name key : String) (v : ℚ) :
    (lookupHistory (addHistory h name v) key).length =
      (lookupHistory h key).length + (if key = name then 1 else 0) :=
  lookupHistory_pushValue h name key v

/-- Length lemma: the per-iteration fold of `Simulation::run` (one
`addHistory("simulation_time")` then one `updateHistories` per iteration). -/
lemma runHistories_loop_length (iterNum : ℕ) (timeVals : ℕ → ℚ)
    (objsAt : ℕ → List Trackable) (h : Histories) (key : String) (keys0 : List String)
    (hshape : ∀ k, (stateEntries (objsAt k)).map Prod.fst = keys0) :
    (lookupHistory ((List.range iterNum).foldl
        (fun h iter =>
          updateHistories (objsAt iter) (addHistory h "simulation_time" (timeVals (iter + 1))))
        h) key).length =
      (lookupHistory h key).length +
        iterNum * (keys0.count key + (if key = "simulation_time" then 1 else 0)) := by
  induction iterNum with
  | zero => simp
  | succ n ih =>
    rw [List.range_succ, List.foldl_append, List.foldl_cons, List.foldl_nil,
      lookupHistory_updateHistories, hshape n, lookupHistory_addHistory, ih]
    ring

/-- Length lemma: the full history trace of `Simulation::run` grows each
registered composite key's series by `iterNum + 1` per unit multiplicity and
the `simulation_time` series by `iterNum + 2` (plus any multiplicity the
composite keys give to the name `simulation_time` itself). -/
lemma runHistories_length (iterNum : ℕ) (timeVals : ℕ → ℚ)
    (objsAt : ℕ → List Trackable) (h0 : Histories) (key : String) (keys0 : List String)
    (hshape : ∀ k, (stateEntries (objsAt k)).map Prod.fst = keys0) :
    (lookupHistory (runHistories iterNum timeVals objsAt h0) key).length =
      (lookupHistory h0 key).length + (iterNum + 1) * keys0.count key +
        (iterNum + 2) * (if key = "simulation_time" then 1 else 0) := by
  unfold runHistories
  dsimp only
  rw [lookupHistory_addHistory, lookupHistory_updateHistories, hshape,
    runHistories_loop_length iterNum timeVals objsAt _ key keys0 hshape,
    lookupHistory_addHistory]
  ring

/-- C7 (amended): for the program flow (`loadFromJson` records one initial
snapshot per registered entity series and nothing under `simulation_time`,
then `run` executes `iterNum` iterations), every recorded series — each
entity field series and the `simulation_time` series — ends with exactly
`iterNum + 2` entries, not `iterNum + 1`: within `run` each entity series
gains `iterNum + 1` entries (one per iteration plus the post-loop record)
while `simulation_time` gains `iterNum + 2`. -/
theorem run_history_lengths (iterNum : ℕ) (timeVals : ℕ → ℚ)
    (objsAt : ℕ → List Trackable) (h0 : Histories) (keys0 : List String) (key : String)
    (hshape : ∀ k, (stateEntries (objsAt k)).map Prod.fst = keys0)
    (hkey : keys0.count key = 1) (hne : key ≠ "simulation_time")
    (hsim : keys0.count "simulation_time" = 0)
    (hlen : (lookupHistory h0 key).length = 1)
    (hlen2 : (lookupHistory h0 "simulation_time").length = 0) :
    (lookupHistory (runHistories iterNum timeVals objsAt h0) key).length = iterNum + 2 ∧
    (lookupHistory (runHistories iterNum timeVals objsAt h0) "simulation_time").length =
      iterNum + 2 := by
  constructor
  · rw [runHistories_length iterNum timeVals objsAt h0 key keys0 hshape, hkey, hlen,
      if_neg hne]
    ring
  · rw [runHistories_length iterNum timeVals objsAt h0 "simulation_time" keys0 hshape, hsim,
      hlen2, if_pos rfl]
    ring

/-- A registered entity for the C7 witness and counterexample. -/
def demoTrackable : Trackable :=
  { displayName := "Exterior", state := [("pH", 0)] }

/-- Counterexample for C7: one registered entity (`Exterior` with one field
`pH`), `iterNum = 1`, histories starting from the `loadFromJson` snapshot:
after `run`, the `Exterior_pH` series has 3 entries and the
`simulation_time` series has 3 entries — not `iterNum + 1 = 2`. -/
theorem run_history_length_counterexample :
    (lookupHistory (runHistories 1 (fun _ => 0) (fun _ => [demoTrackable])
        (updateHistories [demoTrackable] [])) "Exterior_pH").length = 3 ∧
    (lookupHistory (runHistories 1 (fun _ => 0) (fun _ => [demoTrackable])
        (updateHistories [demoTrackable] [])) "simulation_time").length = 3 ∧
    (3 : ℕ) ≠ 1 + 1 := by
  refine ⟨by decide, by decide, by decide⟩

/-- Witness for C7 (amended) at the same concrete instance: both series end
with `iterNum + 2 = 3` entries. -/
theorem run_history_lengths_witness :
    (lookupHistory (runHistories 1 (fun _ => 0) (fun _ => [demoTrackable])
        (updateHistories [demoTrackable] [])) "Exterior_pH").length = 1 + 2 ∧
    (lookupHistory (runHistories 1 (fun _ => 0) (fun _ => [demoTrackable])
        (updateHistories [demoTrackable] [])) "simulation_time").length = 1 + 2 := by
  have hshape : ∀ k : ℕ, (stateEntries [demoTrackable]).map Prod.fst = ["Exterior_pH"] :=
    fun _ => by decide
  exact run_history_lengths 1 (fun _ => 0) (fun _ => [demoTrackable])
    (updateHistories [demoTrackable] []) ["Exterior_pH"] "Exterior_pH"
    hshape (by decide) (by decide) (by decide) (by decide) (by decide)

end MPVolume
